import Mathlib

/-!
Verification of the pix2pix UniToPatho training pipeline
(`src/utils.py` and `src/train_utp.py`) via a shallow embedding.

Tensors are modelled as flat lists of rationals (`List ℚ`); a draw from
`torch.rand_like` is modelled by a stream `r : Nat → ℚ` of values assumed
to lie in `[0, 1)`; a draw from a standard normal is an unconstrained
stream.  `np.mean` over an empty list returns NaN in numpy; NaN is
modelled as `none : Option ℚ`.  External modules (the generator and
discriminator networks, the loss criteria, `denormalize`,
`CancerInstanceDataset.get_img_mask`) are parameters of the embedding,
as they are external interfaces of the repository.
-/

namespace Pix2Pix

/-- Tensors are flattened to lists of rationals; shape is irrelevant to
the properties verified here, which are all element-wise or structural. -/
abbrev Tensor := List ℚ

/-! ## utils.py: label smoothing (`smooth_positive_labels`,
`smooth_negative_labels`, src/utils.py lines 64-71) -/

/-- Element-wise body of `smooth_positive_labels`, consuming the random
stream `r` from index `i` on: `label - 0.3 + rand * 0.5`. -/
def smoothPosAux (r : Nat → ℚ) : Nat → Tensor → Tensor
  | _, [] => []
  | i, l :: ls => (l - 3/10 + r i * (1/2)) :: smoothPosAux r (i + 1) ls

/-- Embedding of `utils.smooth_positive_labels`:
`label - 0.3 + torch.rand_like(label) * 0.5`. -/
def smooth_positive_labels (label : Tensor) (r : Nat → ℚ) : Tensor :=
  smoothPosAux r 0 label

/-- Element-wise body of `smooth_negative_labels`:
`label + rand * 0.3`. -/
def smoothNegAux (r : Nat → ℚ) : Nat → Tensor → Tensor
  | _, [] => []
  | i, l :: ls => (l + r i * (3/10)) :: smoothNegAux r (i + 1) ls

/-- Embedding of `utils.smooth_negative_labels`:
`label + torch.rand_like(label) * 0.3`. -/
def smooth_negative_labels (label : Tensor) (r : Nat → ℚ) : Tensor :=
  smoothNegAux r 0 label

/-- Decidable range check used to state the smoothing bounds:
every element of `l` lies in `[lo, hi)`. -/
def allInRange (lo hi : ℚ) (l : Tensor) : Bool :=
  l.all (fun x => decide (lo ≤ x ∧ x < hi))

/-- `torch.ones_like`: a tensor of ones with the shape of `t`. -/
def onesLike (t : Tensor) : Tensor := t.map (fun _ => 1)

/-- `torch.zeros_like`: a tensor of zeros with the shape of `t`. -/
def zerosLike (t : Tensor) : Tensor := t.map (fun _ => 0)

/-! ## utils.py: checkpoint save / load (src/utils.py lines 27-45) -/

/-- One optimizer parameter group: the learning rate plus the remaining
hyperparameters (represented by the two Adam beta coefficients), as found
in `optimizer.state_dict()["param_groups"]`. -/
structure ParamGroup where
  lr : ℚ
  beta1 : ℚ
  beta2 : ℚ
deriving DecidableEq, Repr

/-- A model: its `state_dict()` is its flattened parameter vector. -/
structure TorchModel where
  state_dict : Tensor
deriving DecidableEq, Repr

/-- An optimizer: per-parameter buffers (momentum / variance state) and
the list of parameter groups. -/
structure Optimizer where
  buffers : Tensor
  param_groups : List ParamGroup
deriving DecidableEq, Repr

/-- The two-key bundle written by `save_checkpoint`:
`\x7b"state_dict": ..., "optimizer": ...\x7d`. -/
structure Checkpoint where
  state_dict : Tensor
  optBuffers : Tensor
  optGroups : List ParamGroup
deriving DecidableEq, Repr

/-- Embedding of `utils.save_checkpoint`: `torch.save` of the two-key
bundle to `filename`, modelled as updating a filename-indexed store. -/
def save_checkpoint (model : TorchModel) (optimizer : Optimizer)
    (filename : String) (fs : String → Option Checkpoint) :
    String → Option Checkpoint :=
  fun f =>
    if f = filename then
      some ⟨model.state_dict, optimizer.buffers, optimizer.param_groups⟩
    else fs f

/-- Embedding of `utils.load_checkpoint`: `torch.load` from the store
(`none` when the file is missing), `load_state_dict` into the given model
and optimizer, then the loop overwriting `param_group["lr"]` with `lr`
for every parameter group.  The incoming `model` and `optimizer` are the
freshly constructed instances whose contents `load_state_dict` discards. -/
def load_checkpoint (fs : String → Option Checkpoint)
    (checkpoint_file : String) (model : TorchModel) (optimizer : Optimizer)
    (lr : ℚ) : Option (TorchModel × Optimizer) :=
  match fs checkpoint_file with
  | none => none
  | some c =>
      some (⟨c.state_dict⟩,
        ⟨c.optBuffers, c.optGroups.map (fun g => { g with lr := lr })⟩)

/-! ## train_utp.py: training-split transform construction
(`load_dataset_UTP`, src/train_utp.py lines 174-179) -/

/-- The torchvision transform stages named by `load_dataset_UTP`. -/
inductive TransformStage where
  | centerCrop (size : Nat)
  | randomHorizontalFlip
  | randomVerticalFlip
  | randomRotate90
deriving DecidableEq, Repr

/-- The attribute names defined at module level by `src/utils.py`
(its lines 11-71): the set a Python attribute lookup `utils.<name>`
succeeds on.  `RandomRotate90` is not among them. -/
def utilsModuleAttrs : List String :=
  ["save_some_examples", "save_checkpoint", "load_checkpoint",
   "set_seed", "init_weights", "smooth_positive_labels",
   "smooth_negative_labels"]

/-- Embedding of the `transform_train` construction in
`load_dataset_UTP`: the `torchvision.transforms.Compose` list is built
only if the attribute lookup `utils.RandomRotate90` succeeds; otherwise
Python raises `AttributeError` before any dataset work happens. -/
def transform_train : Except String (List TransformStage) :=
  if utilsModuleAttrs.contains "RandomRotate90" then
    Except.ok [TransformStage.centerCrop 256,
      TransformStage.randomHorizontalFlip,
      TransformStage.randomVerticalFlip,
      TransformStage.randomRotate90]
  else
    Except.error "AttributeError: module utils has no attribute RandomRotate90"

/-- Embedding of the `transform_test` construction in `load_dataset_UTP`
(lines 187-189): a center crop only, referencing no missing attribute. -/
def transform_test : Except String (List TransformStage) :=
  Except.ok [TransformStage.centerCrop 256]

/-! ## utils.py: weight initialization (`init_weights`,
src/utils.py lines 59-61) -/

/-- A network submodule as `model.apply` visits it: its exact runtime
class name (`type(m)` — a subclass carries its own class name, so an
exact-match test on `cls` is the embedding of `type(m) == nn.Conv2d`),
its weight tensor and its bias tensor. -/
structure NNModule where
  cls : String
  weight : Tensor
  bias : Tensor
deriving DecidableEq, Repr

/-- `nn.init.normal_` filling `n` slots from the standard-normal stream
`s` starting at index `i`: each sample is `mean + std * s i`. -/
def normalSamples (mean std : ℚ) (s : Nat → ℚ) : Nat → Nat → Tensor
  | _, 0 => []
  | i, n + 1 => (mean + std * s i) :: normalSamples mean std s (i + 1) n

/-- Embedding of `nn.init.normal_(w, mean, std)` on a tensor of length
`n`: `n` draws from a normal with the given mean and standard deviation
(`std` scaling of standard-normal draws `s`). -/
def normal_init (mean std : ℚ) (s : Nat → ℚ) (n : Nat) : Tensor :=
  normalSamples mean std s 0 n

/-- Embedding of `utils.init_weights`: when `type(m)` is exactly
`nn.Conv2d` or exactly `nn.ConvTranspose2d`, the weight tensor is
re-filled in place from a normal with mean 0.0 and std 0.02 (= 1/50);
everything else about the module, and every other module, is untouched. -/
def init_weights (s : Nat → ℚ) (m : NNModule) : NNModule :=
  if m.cls = "Conv2d" ∨ m.cls = "ConvTranspose2d" then
    { m with weight := normal_init 0 (1/50) s m.weight.length }
  else m

/-! ## train_utp.py: manifest grade filtering (`load_dataset_UTP`,
src/train_utp.py lines 180-181 and 190-191) -/

/-- One row of a CSV manifest: its `grade` field (`none` models a
missing value, pandas NaN) plus an identifier standing for the rest of
the row. -/
structure ManifestRow where
  rowId : Nat
  grade : Option Int
deriving DecidableEq, Repr

/-- The pandas boolean mask `df.grade >= 0`: a NaN (missing) grade
compares as `False`, so missing grades are excluded. -/
def gradeNonNeg (r : ManifestRow) : Bool :=
  match r.grade with
  | some g => 0 ≤ g
  | none => false

/-- Embedding of `df = df[df.grade >= 0].copy()`: keep, in order, the
rows whose grade is non-negative. -/
def filterByGrade (df : List ManifestRow) : List ManifestRow :=
  df.filter gradeNonNeg

/-- Embedding of the manifest handling of `load_dataset_UTP`: the train
and the test CSV are each filtered by the same `grade >= 0` mask. -/
def load_dataset_UTP_splits (trainCsv testCsv : List ManifestRow) :
    List ManifestRow × List ManifestRow :=
  (filterByGrade trainCsv, filterByGrade testCsv)

/-! ## train_utp.py: checkpoint cadence of `main`
(src/train_utp.py lines 55-78) -/

/-- The externally visible save / upload events of `main`'s training
loop: a `utils.save_checkpoint` call (tagged by model, with the epoch
index, or `none` for the unconditional save after the loop), a
`wandb.save` upload, or the per-epoch `wandb.log` of metrics. -/
inductive MainEvent where
  | ckptSave (tag : String) (epoch : Option Nat)
  | wandbUpload (tag : String) (epoch : Nat)
  | wandbLogStep (epoch : Nat)
deriving DecidableEq, Repr

/-- The events of one iteration of `main`'s epoch loop (lines 55-74):
when `SAVE_MODEL` holds and `epoch % 5 == 0`, both checkpoints are
saved (and uploaded when `LOG_WANDB` holds); when `LOG_WANDB` holds the
epoch metrics are logged. -/
def epochTrace (saveModel logWandb : Bool) (e : Nat) : List MainEvent :=
  (if saveModel && e % 5 == 0 then
    [MainEvent.ckptSave "gen" (some e), MainEvent.ckptSave "disc" (some e)] ++
      (if logWandb then
        [MainEvent.wandbUpload "gen" e, MainEvent.wandbUpload "disc" e]
      else [])
  else []) ++
  (if logWandb then [MainEvent.wandbLogStep e] else [])

/-- The events of `for epoch in range(n)` in `main`. -/
def loopTrace (saveModel logWandb : Bool) : Nat → List MainEvent
  | 0 => []
  | n + 1 => loopTrace saveModel logWandb n ++ epochTrace saveModel logWandb n

/-- The full save / upload event trace of `main` over `numEpochs`
epochs: the loop's events followed by the unconditional final
`save_checkpoint` of both models (lines 76-78). -/
def mainTrace (numEpochs : Nat) (saveModel logWandb : Bool) : List MainEvent :=
  loopTrace saveModel logWandb numEpochs ++
    [MainEvent.ckptSave "gen" none, MainEvent.ckptSave "disc" none]

/-- The epochs (with `none` for the after-loop save) at which the model
tagged `tag` is saved by `utils.save_checkpoint` in a trace, in order. -/
def ckptEpochs (tag : String) (tr : List MainEvent) : List (Option Nat) :=
  tr.filterMap (fun ev =>
    match ev with
    | MainEvent.ckptSave t e => if t = tag then some e else none
    | _ => none)

/-! ## train_utp.py: per-epoch training pass (`train_fn`,
src/train_utp.py lines 108-165) -/

/-- The external interfaces `train_fn` calls into: the two network
forward passes (as functions of a parameter vector), the two loss
criteria, the configured constants, the per-step uniform noise streams
for label smoothing, and the parameter updates performed by the
scaler-mediated optimizer steps. -/
structure TrainEnv where
  genApply : Tensor → Tensor → Tensor
  discApply : Tensor → Tensor → Tensor → Tensor
  bce : Tensor → Tensor → ℚ
  l1_crit : Tensor → Tensor → ℚ
  l1_lambda : ℚ
  smoothPos : Bool
  smoothNeg : Bool
  noisePos : Nat → Nat → ℚ
  noiseNeg : Nat → Nat → ℚ
  discUpdate : Tensor → ℚ → Tensor
  genUpdate : Tensor → ℚ → Tensor

/-- The mutable state `train_fn` threads: both models' parameters and
mode flags, and counters of the optimizer / gradient-scaler
interactions (`zero_grad`, scaler-mediated `step`, scaler `update`). -/
structure TrainState where
  genParams : Tensor
  discParams : Tensor
  genTraining : Bool
  discTraining : Bool
  optDiscZeroGrads : Nat
  optDiscSteps : Nat
  optGenZeroGrads : Nat
  optGenSteps : Nat
  dScalerUpdates : Nat
  gScalerUpdates : Nat
deriving Repr

/-- One iteration of `train_fn`'s batch loop (lines 116-157): the
discriminator update on the real and the detached fake pair (with
optional label smoothing), then the generator update on the re-scored
fake pair plus the weighted L1 term; returns the new state and the three
per-step losses recorded this iteration, in the order they are appended
(generator adversarial, generator L1, discriminator). -/
def train_step (E : TrainEnv) (idx : Nat) (st : TrainState)
    (b : Tensor × Tensor) : TrainState × ℚ × ℚ × ℚ :=
  let image_real := b.1
  let mask := b.2
  let image_fake := E.genApply st.genParams mask
  let d_real := E.discApply st.discParams mask image_real
  let target_real :=
    if E.smoothPos then
      smooth_positive_labels (onesLike d_real) (E.noisePos idx)
    else onesLike d_real
  let d_real_loss := E.bce d_real target_real
  let d_fake := E.discApply st.discParams mask image_fake
  let target_fake :=
    if E.smoothNeg then
      smooth_negative_labels (zerosLike d_fake) (E.noiseNeg idx)
    else zerosLike d_fake
  let d_fake_loss := E.bce d_fake target_fake
  let d_loss := (d_real_loss + d_fake_loss) / 2
  let discParams2 := E.discUpdate st.discParams d_loss
  let d_fake2 := E.discApply discParams2 mask image_fake
  let g_fake_loss := E.bce d_fake2 (onesLike d_fake2)
  let l1 := E.l1_crit image_fake image_real * E.l1_lambda
  let g_loss := g_fake_loss + l1
  let genParams2 := E.genUpdate st.genParams g_loss
  ({ st with
      genParams := genParams2
      discParams := discParams2
      optDiscZeroGrads := st.optDiscZeroGrads + 1
      optDiscSteps := st.optDiscSteps + 1
      optGenZeroGrads := st.optGenZeroGrads + 1
      optGenSteps := st.optGenSteps + 1
      dScalerUpdates := st.dScalerUpdates + 1
      gScalerUpdates := st.gScalerUpdates + 1 },
    g_fake_loss, l1, d_loss)

/-- The batch loop of `train_fn`, accumulating the three per-step loss
histories (`gen_adv_losses`, `gen_l1_losses`, `disc_losses`) in
iteration order. -/
def train_loop (E : TrainEnv) :
    Nat → TrainState → List (Tensor × Tensor) →
    TrainState × List ℚ × List ℚ × List ℚ
  | _, st, [] => (st, [], [], [])
  | idx, st, b :: bs =>
      let r := train_step E idx st b
      let rest := train_loop E (idx + 1) r.1 bs
      (rest.1, r.2.1 :: rest.2.1, r.2.2.1 :: rest.2.2.1,
        r.2.2.2 :: rest.2.2.2)

/-- `np.mean` over a list of scalars: `none` models the NaN numpy
returns (with a RuntimeWarning, not an exception) on an empty list. -/
def npMean (l : List ℚ) : Option ℚ :=
  match l with
  | [] => none
  | _ :: _ => some (l.sum / l.length)

/-- Embedding of `train_fn`: set both models to training mode, run the
batch loop, and return the new state with the means of the three
recorded loss streams, in the source's return order
`(np.mean(gen_adv_losses), np.mean(gen_l1_losses), np.mean(disc_losses))`. -/
def train_fn (E : TrainEnv) (st : TrainState)
    (batches : List (Tensor × Tensor)) :
    TrainState × Option ℚ × Option ℚ × Option ℚ :=
  let st0 := { st with genTraining := true, discTraining := true }
  let r := train_loop E 0 st0 batches
  (r.1, npMean r.2.1, npMean r.2.2.1, npMean r.2.2.2)

/-- A concrete training environment used to exercise `train_fn` on a
concrete run: identity-like networks and sum-difference criteria. -/
def sampleEnv : TrainEnv where
  genApply := fun _ mask => mask
  discApply := fun _ _ img => img
  bce := fun a b => a.sum - b.sum
  l1_crit := fun a b => a.sum - b.sum
  l1_lambda := 100
  smoothPos := false
  smoothNeg := false
  noisePos := fun _ _ => 0
  noiseNeg := fun _ _ => 0
  discUpdate := fun p _ => p
  genUpdate := fun p _ => p

/-- A concrete starting state used to exercise `train_fn`. -/
def sampleState : TrainState where
  genParams := [0]
  discParams := [0]
  genTraining := false
  discTraining := false
  optDiscZeroGrads := 0
  optDiscSteps := 0
  optGenZeroGrads := 0
  optGenSteps := 0
  dScalerUpdates := 0
  gScalerUpdates := 0

/-! ## Evaluation-mode discipline (`utils.save_some_examples`,
src/utils.py lines 11-24; `wandb_log_generated_images`,
src/train_utp.py lines 85-105) -/

/-- The generator as the mode-switching routines see it: its mode flag
(`training = true` after `.train()`, `false` after `.eval()`) and its
forward function. -/
structure GenModel where
  training : Bool
  forward : Tensor → Tensor

/-- Embedding of `utils.save_some_examples`: draw one batch from the
validation iterator (`none` models the StopIteration of `next` on an
empty iterator — no normal return), switch the generator to evaluation
mode, generate, write `y_gen_<epoch>.png` (and `label_<epoch>.png` at
epoch 0) to the file store, and switch the generator back to training
mode.  `denormalize` is the external `dataset.pannuke.denormalize`. -/
def save_some_examples (denormalize : Tensor → Tensor) (gen : GenModel)
    (val_loader : List (Tensor × Tensor)) (epoch : Nat) (folder : String)
    (fs : List (String × Tensor)) :
    Option (GenModel × List (String × Tensor)) :=
  match val_loader with
  | [] => none
  | (image_real, mask) :: _ =>
      let gen1 : GenModel := { gen with training := false }
      let y_fake := gen1.forward mask
      let fs1 := fs ++
        [(folder ++ "/y_gen_" ++ toString epoch ++ ".png", denormalize y_fake)]
      let fs2 :=
        if epoch = 0 then
          fs1 ++ [(folder ++ "/label_" ++ toString epoch ++ ".png",
            denormalize image_real)]
        else fs1
      some ({ gen1 with training := true }, fs2)

/-- The per-batch grid assembly of `wandb_log_generated_images`: one
(mask, real, fake) grid per sample of the batch, in sample order.  Here
a batch is a list of per-sample tensors; `getImgMask` is the external
`CancerInstanceDataset.get_img_mask`. -/
def batchGrids (denormalize getImgMask : Tensor → Tensor) (gen : GenModel)
    (images_real masks : List Tensor) : List (List Tensor) :=
  let fakes := masks.map gen.forward
  (List.zip masks (List.zip images_real fakes)).map
    (fun p => [getImgMask p.1, denormalize p.2.1, denormalize p.2.2])

/-- The `for idx_batch, ... in enumerate(loader)` loop of
`wandb_log_generated_images` with its `if idx_batch + 1 == batch_to_log:
break` (so with `batch_to_log = 0` the break never fires and every batch
is drawn). -/
def collectGrids (denormalize getImgMask : Tensor → Tensor) (gen : GenModel) :
    Nat → Nat → List (List Tensor × List Tensor) → List (List Tensor)
  | _, _, [] => []
  | idx, btl, b :: bs =>
      batchGrids denormalize getImgMask gen b.1 b.2 ++
        (if idx + 1 = btl then []
         else collectGrids denormalize getImgMask gen (idx + 1) btl bs)

/-- Embedding of `wandb_log_generated_images`: switch the generator to
evaluation mode, assemble the per-sample grids over up to `batch_to_log`
batches, log them in one call (the returned list is the logged panel),
and switch the generator back to training mode. -/
def wandb_log_generated_images (denormalize getImgMask : Tensor → Tensor)
    (gen : GenModel) (loader : List (List Tensor × List Tensor))
    (batch_to_log : Nat) : GenModel × List (List Tensor) :=
  let gen1 : GenModel := { gen with training := false }
  let images_to_log := collectGrids denormalize getImgMask gen1 0 batch_to_log loader
  ({ gen1 with training := true }, images_to_log)

/-! ## Theorems -/

/-- Helper: every element produced by `smoothPosAux` from a tensor of
ones lies in `[0.7, 1.2)` when the random stream stays in `[0, 1)`. -/
theorem smoothPosAux_ones_bounds (r : Nat → ℚ)
    (hr : ∀ i, 0 ≤ r i ∧ r i < 1) :
    ∀ i n, allInRange (7/10) (6/5) (smoothPosAux r i (List.replicate n 1)) = true := by
  intro i n
  induction n generalizing i with
  | zero => rfl
  | succ m ih =>
      have h := hr i
      simp only [List.replicate_succ, smoothPosAux, allInRange, List.all_cons,
        Bool.and_eq_true, decide_eq_true_eq]
      exact ⟨⟨by linarith [h.1], by linarith [h.2]⟩, ih (i + 1)⟩

/-- Helper: every element produced by `smoothNegAux` from a tensor of
zeros lies in `[0, 0.3)` when the random stream stays in `[0, 1)`. -/
theorem smoothNegAux_zeros_bounds (r : Nat → ℚ)
    (hr : ∀ i, 0 ≤ r i ∧ r i < 1) :
    ∀ i n, allInRange 0 (3/10) (smoothNegAux r i (List.replicate n 0)) = true := by
  intro i n
  induction n generalizing i with
  | zero => rfl
  | succ m ih =>
      have h := hr i
      simp only [List.replicate_succ, smoothNegAux, allInRange, List.all_cons,
        Bool.and_eq_true, decide_eq_true_eq]
      exact ⟨⟨by linarith [h.1], by linarith [h.2]⟩, ih (i + 1)⟩

/-- C3: for every tensor shape (here every length `n`, shape being
irrelevant element-wise), `smooth_positive_labels` on a tensor of ones
yields values in `[0.7, 1.2)`, and `smooth_negative_labels` on a tensor
of zeros yields values in `[0.0, 0.3)`, whenever the uniform draws lie
in `[0, 1)`. -/
theorem smooth_labels_bounds (n m : Nat) (r r' : Nat → ℚ)
    (hr : ∀ i, 0 ≤ r i ∧ r i < 1) (hr' : ∀ i, 0 ≤ r' i ∧ r' i < 1) :
    allInRange (7/10) (6/5)
        (smooth_positive_labels (List.replicate n 1) r) = true ∧
    allInRange 0 (3/10)
        (smooth_negative_labels (List.replicate m 0) r') = true :=
  ⟨smoothPosAux_ones_bounds r hr 0 n, smoothNegAux_zeros_bounds r' hr' 0 m⟩

/-- C3 witness: the bounds instantiated at length 3 tensors and the
constant stream 1/2. -/
theorem smooth_labels_bounds_witness :
    allInRange (7/10) (6/5)
        (smooth_positive_labels (List.replicate 3 1) (fun _ => 1/2)) = true ∧
    allInRange 0 (3/10)
        (smooth_negative_labels (List.replicate 3 0) (fun _ => 1/2)) = true :=
  smooth_labels_bounds 3 3 (fun _ => 1/2) (fun _ => 1/2)
    (fun _ => ⟨by norm_num, by norm_num⟩) (fun _ => ⟨by norm_num, by norm_num⟩)

/-- C1: saving a model and optimizer to file `f` and loading `f` into
freshly constructed instances `model'`, `optimizer'` with learning rate
`lr` succeeds and yields: the saved parameters, the saved optimizer
buffers, the saved parameter groups up to their non-learning-rate fields,
and learning rate `lr` in every parameter group — regardless of the
learning rates in effect at save time and of the fresh instances'
contents. -/
theorem checkpoint_round_trip (model : TorchModel) (optimizer : Optimizer)
    (f : String) (fs : String → Option Checkpoint)
    (model' : TorchModel) (optimizer' : Optimizer) (lr : ℚ) :
    ∃ m2 o2,
      load_checkpoint (save_checkpoint model optimizer f fs) f
          model' optimizer' lr = some (m2, o2) ∧
      m2.state_dict = model.state_dict ∧
      o2.buffers = optimizer.buffers ∧
      o2.param_groups.map (fun g => (g.beta1, g.beta2)) =
        optimizer.param_groups.map (fun g => (g.beta1, g.beta2)) ∧
      ∀ g ∈ o2.param_groups, g.lr = lr := by
  refine ⟨⟨model.state_dict⟩,
    ⟨optimizer.buffers,
      optimizer.param_groups.map (fun g => { g with lr := lr })⟩, ?_, rfl, rfl, ?_, ?_⟩
  · simp [load_checkpoint, save_checkpoint]
  · simp
  · intro g hg
    obtain ⟨g0, _, rfl⟩ := List.mem_map.mp hg
    rfl

/-- C2 (failing construction): every call of `load_dataset_UTP` evaluates
`utils.RandomRotate90` while building the training transform, and
`utils.py` defines no such attribute, so the construction raises
`AttributeError` instead of producing the four-stage composition. -/
theorem transform_train_attribute_error :
    transform_train =
      Except.error "AttributeError: module utils has no attribute RandomRotate90" := by
  rfl

/-- Helper: a normal draw with parameters `(mean, std)` is the affine
image `mean + std * x` of a standard-normal draw, slot by slot. -/
theorem normalSamples_affine (mean std : ℚ) (s : Nat → ℚ) :
    ∀ n i, normalSamples mean std s i n =
      (normalSamples 0 1 s i n).map (fun x => mean + std * x) := by
  intro n
  induction n with
  | zero => intro i; rfl
  | succ k ih => intro i; simp [normalSamples, ih (i + 1)]

/-- C5: `init_weights` re-fills the weight from a normal with mean 0.0
and std 0.02 exactly when the submodule's runtime class is exactly
`Conv2d` or exactly `ConvTranspose2d` (a subclass carries a different
runtime class name and falls in the unchanged case); it never touches
the bias, and the normal draw is the `0 + (1/50) * x` affine image of
standard-normal draws. -/
theorem init_weights_selectivity (s : Nat → ℚ) (m : NNModule) :
    ((m.cls = "Conv2d" ∨ m.cls = "ConvTranspose2d") →
      (init_weights s m).weight = normal_init 0 (1/50) s m.weight.length) ∧
    (¬(m.cls = "Conv2d" ∨ m.cls = "ConvTranspose2d") →
      init_weights s m = m) ∧
    (init_weights s m).bias = m.bias ∧
    (init_weights s m).cls = m.cls ∧
    normal_init 0 (1/50) s m.weight.length =
      (normal_init 0 1 s m.weight.length).map (fun x => 0 + (1/50) * x) := by
  refine ⟨fun h => ?_, fun h => ?_, ?_, ?_, ?_⟩
  · rw [init_weights, if_pos h]
  · rw [init_weights, if_neg h]
  · by_cases h : m.cls = "Conv2d" ∨ m.cls = "ConvTranspose2d" <;>
      simp [init_weights, h]
  · by_cases h : m.cls = "Conv2d" ∨ m.cls = "ConvTranspose2d" <;>
      simp [init_weights, h]
  · rw [normal_init, normal_init]
    exact normalSamples_affine 0 (1/50) s m.weight.length 0

/-- Helper: the pandas mask `grade >= 0` holds exactly on rows whose
grade is present and non-negative. -/
theorem gradeNonNeg_iff (r : ManifestRow) :
    gradeNonNeg r = true ↔ ∃ g, r.grade = some g ∧ 0 ≤ g := by
  cases h : r.grade with
  | none => simp [gradeNonNeg, h]
  | some g => simp [gradeNonNeg, h]

/-- C6: both splits keep exactly the rows whose grade is present and
non-negative (negative and missing grades excluded), as a subsequence of
the manifest (original relative order preserved); on the example grades
[-1, 0, 2, -5, 3] exactly the three rows graded 0, 2, 3 survive, in
order. -/
theorem grade_filter_spec (trainCsv testCsv : List ManifestRow) :
    (load_dataset_UTP_splits trainCsv testCsv).1 = filterByGrade trainCsv ∧
    (load_dataset_UTP_splits trainCsv testCsv).2 = filterByGrade testCsv ∧
    List.Sublist (filterByGrade trainCsv) trainCsv ∧
    List.Sublist (filterByGrade testCsv) testCsv ∧
    (∀ r, r ∈ filterByGrade trainCsv ↔
      r ∈ trainCsv ∧ ∃ g, r.grade = some g ∧ 0 ≤ g) ∧
    (∀ r, r ∈ filterByGrade testCsv ↔
      r ∈ testCsv ∧ ∃ g, r.grade = some g ∧ 0 ≤ g) ∧
    filterByGrade
        [⟨0, some (-1)⟩, ⟨1, some 0⟩, ⟨2, some 2⟩, ⟨3, some (-5)⟩,
          ⟨4, some 3⟩] =
      [⟨1, some 0⟩, ⟨2, some 2⟩, ⟨4, some 3⟩] := by
  refine ⟨rfl, rfl, List.filter_sublist _, List.filter_sublist _, ?_, ?_, by decide⟩
  · intro r
    rw [filterByGrade, List.mem_filter, gradeNonNeg_iff]
  · intro r
    rw [filterByGrade, List.mem_filter, gradeNonNeg_iff]

/-- Helper: `ckptEpochs` distributes over trace concatenation. -/
theorem ckptEpochs_append (tag : String) (a b : List MainEvent) :
    ckptEpochs tag (a ++ b) = ckptEpochs tag a ++ ckptEpochs tag b := by
  simp [ckptEpochs]

/-- Helper: one epoch's trace saves the generator checkpoint exactly when
saving is on and the epoch index is a multiple of 5. -/
theorem ckptEpochs_gen_epochTrace (sm lw : Bool) (e : Nat) :
    ckptEpochs "gen" (epochTrace sm lw e) =
      if sm && e % 5 == 0 then [some e] else [] := by
  cases sm <;> cases lw <;> by_cases h : e % 5 == 0 <;>
    simp [epochTrace, ckptEpochs, h]

/-- Helper: one epoch's trace saves the discriminator checkpoint exactly
when saving is on and the epoch index is a multiple of 5. -/
theorem ckptEpochs_disc_epochTrace (sm lw : Bool) (e : Nat) :
    ckptEpochs "disc" (epochTrace sm lw e) =
      if sm && e % 5 == 0 then [some e] else [] := by
  cases sm <;> cases lw <;> by_cases h : e % 5 == 0 <;>
    simp [epochTrace, ckptEpochs, h]

/-- Helper: over `n` loop iterations with saving on, the generator is
checkpointed exactly at the epochs that are multiples of 5, in order. -/
theorem ckptEpochs_gen_loopTrace (lw : Bool) :
    ∀ n, ckptEpochs "gen" (loopTrace true lw n) =
      ((List.range n).filter (fun e => e % 5 == 0)).map some := by
  intro n
  induction n with
  | zero => rfl
  | succ k ih =>
      rw [loopTrace, ckptEpochs_append, ih, ckptEpochs_gen_epochTrace,
        List.range_succ, List.filter_append, List.map_append]
      by_cases h : k % 5 == 0 <;> simp [h]

/-- Helper: over `n` loop iterations with saving on, the discriminator is
checkpointed exactly at the epochs that are multiples of 5, in order. -/
theorem ckptEpochs_disc_loopTrace (lw : Bool) :
    ∀ n, ckptEpochs "disc" (loopTrace true lw n) =
      ((List.range n).filter (fun e => e % 5 == 0)).map some := by
  intro n
  induction n with
  | zero => rfl
  | succ k ih =>
      rw [loopTrace, ckptEpochs_append, ih, ckptEpochs_disc_epochTrace,
        List.range_succ, List.filter_append, List.map_append]
      by_cases h : k % 5 == 0 <;> simp [h]

/-- C4: with checkpointing enabled, over any number of epochs and
independently of the tracking flag, each model's checkpoint saves happen
exactly at the in-loop epochs that are multiples of 5 (epoch 0 included)
followed by the one unconditional after-loop save; a 12-epoch run saves
at epochs 0, 5, 10 plus the final save — 4 save events per model. -/
theorem main_checkpoint_cadence (numEpochs : Nat) (logWandb : Bool) :
    ckptEpochs "gen" (mainTrace numEpochs true logWandb) =
      ((List.range numEpochs).filter (fun e => e % 5 == 0)).map some
        ++ [none] ∧
    ckptEpochs "disc" (mainTrace numEpochs true logWandb) =
      ((List.range numEpochs).filter (fun e => e % 5 == 0)).map some
        ++ [none] ∧
    ckptEpochs "gen" (mainTrace 12 true logWandb) =
      [some 0, some 5, some 10, none] ∧
    ckptEpochs "disc" (mainTrace 12 true logWandb) =
      [some 0, some 5, some 10, none] := by
  have hg : ∀ N, ckptEpochs "gen" (mainTrace N true logWandb) =
      ((List.range N).filter (fun e => e % 5 == 0)).map some ++ [none] := by
    intro N
    rw [mainTrace, ckptEpochs_append, ckptEpochs_gen_loopTrace]
    rfl
  have hd : ∀ N, ckptEpochs "disc" (mainTrace N true logWandb) =
      ((List.range N).filter (fun e => e % 5 == 0)).map some ++ [none] := by
    intro N
    rw [mainTrace, ckptEpochs_append, ckptEpochs_disc_loopTrace]
    rfl
  refine ⟨hg numEpochs, hd numEpochs, ?_, ?_⟩
  · rw [hg 12]; decide
  · rw [hd 12]; decide

/-- Helper: one training step never touches the mode flags. -/
theorem train_step_modes (E : TrainEnv) (idx : Nat) (st : TrainState)
    (b : Tensor × Tensor) :
    (train_step E idx st b).1.genTraining = st.genTraining ∧
    (train_step E idx st b).1.discTraining = st.discTraining :=
  ⟨rfl, rfl⟩

/-- Helper: the batch loop never touches the mode flags. -/
theorem train_loop_modes (E : TrainEnv) :
    ∀ bs idx st,
      (train_loop E idx st bs).1.genTraining = st.genTraining ∧
      (train_loop E idx st bs).1.discTraining = st.discTraining := by
  intro bs
  induction bs with
  | nil => intro idx st; exact ⟨rfl, rfl⟩
  | cons b tl ih =>
      intro idx st
      have h := ih (idx + 1) (train_step E idx st b).1
      exact ⟨h.1.trans (train_step_modes E idx st b).1,
        h.2.trans (train_step_modes E idx st b).2⟩

/-- Helper: the batch loop records exactly one value per batch in each
of the three loss histories. -/
theorem train_loop_lengths (E : TrainEnv) :
    ∀ bs idx st,
      (train_loop E idx st bs).2.1.length = bs.length ∧
      (train_loop E idx st bs).2.2.1.length = bs.length ∧
      (train_loop E idx st bs).2.2.2.length = bs.length := by
  intro bs
  induction bs with
  | nil => intro idx st; exact ⟨rfl, rfl, rfl⟩
  | cons b tl ih =>
      intro idx st
      have h := ih (idx + 1) (train_step E idx st b).1
      refine ⟨?_, ?_, ?_⟩
      · have e : (train_loop E idx st (b :: tl)).2.1 =
            (train_step E idx st b).2.1 ::
              (train_loop E (idx + 1) (train_step E idx st b).1 tl).2.1 := rfl
        rw [e, List.length_cons, h.1, List.length_cons]
      · have e : (train_loop E idx st (b :: tl)).2.2.1 =
            (train_step E idx st b).2.2.1 ::
              (train_loop E (idx + 1) (train_step E idx st b).1 tl).2.2.1 := rfl
        rw [e, List.length_cons, h.2.1, List.length_cons]
      · have e : (train_loop E idx st (b :: tl)).2.2.2 =
            (train_step E idx st b).2.2.2 ::
              (train_loop E (idx + 1) (train_step E idx st b).1 tl).2.2.2 := rfl
        rw [e, List.length_cons, h.2.2, List.length_cons]

/-- Helper: `np.mean` over a non-empty list is the arithmetic mean. -/
theorem npMean_of_ne_nil (l : List ℚ) (h : l ≠ []) :
    npMean l = some (l.sum / l.length) := by
  cases l with
  | nil => exact absurd rfl h
  | cons a as => rfl

/-- C7: on any non-empty training iterator, `train_fn` returns, besides
the final state, exactly three scalars, in the source's order (generator
adversarial, generator L1, discriminator), each the arithmetic mean of
the per-step history of that stream — one recorded value per batch. -/
theorem train_fn_epoch_means (E : TrainEnv) (st : TrainState)
    (batches : List (Tensor × Tensor)) (h : batches ≠ []) :
    ∃ st1 gas l1s dls,
      train_loop E 0 { st with genTraining := true, discTraining := true }
          batches = (st1, gas, l1s, dls) ∧
      gas.length = batches.length ∧
      l1s.length = batches.length ∧
      dls.length = batches.length ∧
      train_fn E st batches =
        (st1, some (gas.sum / gas.length), some (l1s.sum / l1s.length),
          some (dls.sum / dls.length)) := by
  have hlen := train_loop_lengths E batches 0
    { st with genTraining := true, discTraining := true }
  have hbl : batches.length ≠ 0 := fun hc => h (List.length_eq_zero.mp hc)
  refine ⟨(train_loop E 0 _ batches).1, (train_loop E 0 _ batches).2.1,
    (train_loop E 0 _ batches).2.2.1, (train_loop E 0 _ batches).2.2.2,
    rfl, hlen.1, hlen.2.1, hlen.2.2, ?_⟩
  have h1 : (train_loop E 0 { st with genTraining := true, discTraining := true } batches).2.1 ≠ [] := by
    intro hc
    exact hbl (by rw [← hlen.1, hc]; rfl)
  have h2 : (train_loop E 0 { st with genTraining := true, discTraining := true } batches).2.2.1 ≠ [] := by
    intro hc
    exact hbl (by rw [← hlen.2.1, hc]; rfl)
  have h3 : (train_loop E 0 { st with genTraining := true, discTraining := true } batches).2.2.2 ≠ [] := by
    intro hc
    exact hbl (by rw [← hlen.2.2, hc]; rfl)
  show (_, npMean _, npMean _, npMean _) = _
  rw [npMean_of_ne_nil _ h1, npMean_of_ne_nil _ h2, npMean_of_ne_nil _ h3]

/-- C7 witness: the epoch-mean property at a concrete one-batch run of
the sample environment. -/
theorem train_fn_epoch_means_witness :
    ∃ st1 gas l1s dls,
      train_loop sampleEnv 0
          { sampleState with genTraining := true, discTraining := true }
          [([1], [2])] = (st1, gas, l1s, dls) ∧
      gas.length = [((([1] : Tensor)), (([2] : Tensor)))].length ∧
      l1s.length = [((([1] : Tensor)), (([2] : Tensor)))].length ∧
      dls.length = [((([1] : Tensor)), (([2] : Tensor)))].length ∧
      train_fn sampleEnv sampleState [([1], [2])] =
        (st1, some (gas.sum / gas.length), some (l1s.sum / l1s.length),
          some (dls.sum / dls.length)) :=
  train_fn_epoch_means sampleEnv sampleState [([1], [2])]
    (List.cons_ne_nil _ _)

/-- C9: on an empty training iterator, `train_fn` returns normally with
NaN (modelled as `none`) for all three epoch means, and leaves both
models' parameters and every optimizer / gradient-scaler interaction
counter exactly as they were — only the mode flags are set.  In numpy,
`np.mean([])` yields NaN with a RuntimeWarning and no exception, so the
source's return statement does not raise. -/
theorem train_fn_empty_iterator (E : TrainEnv) (st : TrainState) :
    train_fn E st [] =
      ({ st with genTraining := true, discTraining := true },
        none, none, none) ∧
    (train_fn E st []).1.genParams = st.genParams ∧
    (train_fn E st []).1.discParams = st.discParams ∧
    (train_fn E st []).1.optDiscZeroGrads = st.optDiscZeroGrads ∧
    (train_fn E st []).1.optDiscSteps = st.optDiscSteps ∧
    (train_fn E st []).1.optGenZeroGrads = st.optGenZeroGrads ∧
    (train_fn E st []).1.optGenSteps = st.optGenSteps ∧
    (train_fn E st []).1.dScalerUpdates = st.dScalerUpdates ∧
    (train_fn E st []).1.gScalerUpdates = st.gScalerUpdates :=
  ⟨rfl, rfl, rfl, rfl, rfl, rfl, rfl, rfl, rfl⟩

/-- C10: `train_fn` unconditionally puts both models in training mode
before the batch loop: the epoch pass is invariant under the incoming
mode flags, and (the loop never touching the flags) both models are in
training mode throughout and at the end of the pass. -/
theorem train_fn_sets_training_modes (E : TrainEnv) (st : TrainState)
    (batches : List (Tensor × Tensor)) (b1 b2 : Bool) :
    (train_fn E st batches).1.genTraining = true ∧
    (train_fn E st batches).1.discTraining = true ∧
    train_fn E { st with genTraining := b1, discTraining := b2 } batches =
      train_fn E st batches := by
  refine ⟨?_, ?_, rfl⟩
  · exact (train_loop_modes E batches 0
      { st with genTraining := true, discTraining := true }).1
  · exact (train_loop_modes E batches 0
      { st with genTraining := true, discTraining := true }).2

/-- C8: every normally-returning call of `save_some_examples` (drawing a
batch succeeded) hands back the generator with its mode flag in training
mode, and so does every call of `wandb_log_generated_images` — both
switch it to evaluation mode only inside their inference section. -/
theorem generator_mode_restoration (denormalize getImgMask : Tensor → Tensor)
    (gen : GenModel) (val_loader : List (Tensor × Tensor)) (epoch : Nat)
    (folder : String) (fs : List (String × Tensor))
    (loader : List (List Tensor × List Tensor)) (batch_to_log : Nat) :
    (∀ res, save_some_examples denormalize gen val_loader epoch folder fs =
        some res → res.1.training = true) ∧
    (wandb_log_generated_images denormalize getImgMask gen loader
        batch_to_log).1.training = true := by
  constructor
  · intro res h
    match val_loader with
    | [] => exact Option.noConfusion h
    | (image_real, mask) :: rest =>
        simp only [save_some_examples, Option.some.injEq] at h
        rw [← h]
  · rfl

end Pix2Pix
